import Mathlib

/-!
Verification of the redis HTTP gateway in src/src/main.rs.

The file embeds the programs data model shallowly: JSON response bodies,
the MyError taxonomy and its ResponseError mapping, the two request
handlers parameterized over the shared client behind the mutex, the
concrete RedisClient, and an interleaving semantics of the locking
discipline. Theorems after the definitions settle the specification
claims.
-/

/-- JSON values, as far as the response bodies of this program need them:
the handlers emit a JSON string, a JSON object, or JSON null (the
serialization of the unit acknowledgement a successful set returns). -/
inductive Json where
  | null : Json
  | str : String → Json
  | obj : List (String × Json) → Json

/-- An HTTP response: numeric status code plus JSON body. -/
structure HttpResponse where
  status : Nat
  body : Json

/-- MyError, src/src/main.rs lines 43 to 49: LockError for a failed mutex
acquisition, ClientError wrapping the underlying backend error. The
wrapped boxed error is carried here as its Debug rendering, a string. -/
inductive MyError where
  | LockError : MyError
  | ClientError : String → MyError

/-- The ResponseError impl, lines 51 to 59: LockError maps to 500 with the
generic body, ClientError maps to 500 with a body made of the fixed
retrieval message followed by the Debug rendering of the wrapped error. -/
def MyError.error_response : MyError → HttpResponse
  | .LockError => ⟨500, Json.str "Internal server error"⟩
  | .ClientError e => ⟨500, Json.str ("Failed to retrieve value: " ++ e)⟩

/-- GetValueReq, lines 33 to 36. -/
structure GetValueReq where
  key : String

/-- GetValueResp, lines 37 to 41. -/
structure GetValueResp where
  key : String
  value : String

/-- Serde serialization of GetValueResp: an object with a key field and a
value field. -/
def GetValueResp.toJson (r : GetValueResp) : Json :=
  Json.obj [("key", Json.str r.key), ("value", Json.str r.value)]

/-- SetValueReq, lines 81 to 85. -/
structure SetValueReq where
  key : String
  value : String

/-- Outcome of calling lock() on the std mutex guarding the client: the
guard is acquired, or acquisition fails (poisoning). -/
inductive LockResult where
  | acquired : LockResult
  | poisoned : LockResult

/-- The RedisAPI trait object held behind the mutex, lines 131 to 135: a
get and a set operation, each returning the backend result or the Debug
rendering of a RedisError. -/
structure RedisAPI where
  get : String → Except String String
  set : String → String → Except String Unit

/-- The get_value handler, lines 61 to 79: acquire the lock (LockError on
failure), call get on the client with the request key (ClientError on
failure), otherwise 200 with the serialized GetValueResp echoing the
request key next to the returned value. The outer Except models the Rust
Result return; actix renders the error via error_response. -/
def get_value (lock : LockResult) (client : RedisAPI) (req : GetValueReq) :
    Except MyError HttpResponse :=
  match lock with
  | .poisoned => Except.error MyError.LockError
  | .acquired =>
    match client.get req.key with
    | .error e => Except.error (MyError.ClientError e)
    | .ok val => Except.ok ⟨200, GetValueResp.toJson ⟨req.key, val⟩⟩

/-- The set_value handler, lines 87 to 102: acquire the lock (LockError on
failure), call set on the client with the request key and value
(ClientError on failure), otherwise 200 with the serialization of the unit
result, which is JSON null. -/
def set_value (lock : LockResult) (client : RedisAPI) (req : SetValueReq) :
    Except MyError HttpResponse :=
  match lock with
  | .poisoned => Except.error MyError.LockError
  | .acquired =>
    match client.set req.key req.value with
    | .error e => Except.error (MyError.ClientError e)
    | .ok _ => Except.ok ⟨200, Json.null⟩

/-- Actix turning a handler result into the wire response: Ok passes
through, Err is rendered by error_response. -/
def respond (r : Except MyError HttpResponse) : HttpResponse :=
  match r with
  | .ok resp => resp
  | .error e => MyError.error_response e

/-- The backend key-value state: the contents of the redis server,
a partial map from keys to string values. -/
abbrev Store := String → Option String

/-- Modelled from the spec: the backend fetch-by-key command (the redis
protocol is an external collaborator, specified at its interface). It
returns the value currently associated with the key; an absent key is a
failure — in the source, line 120, the nil reply fails conversion to
String and surfaces as a RedisError. -/
def backendGET (st : Store) (k : String) : Except String String :=
  match st k with
  | some v => Except.ok v
  | none => Except.error ("response was nil for key " ++ k)

/-- Modelled from the spec: the backend store-by-key command associates
the value with the key, overwriting any prior value. -/
def backendSET (st : Store) (k v : String) : Store :=
  fun q => if q = k then some v else st q

/-- A backend protocol command, recorded so that theorems can count the
commands a client call issues. -/
inductive Command where
  | GET : String → Command
  | SET : String → String → Command

/-- The concrete store client, lines 104 to 106: holds the parsed backend
address. -/
structure RedisClient where
  url : String

/-- Modelled from the spec: the address parsing done by the redis crate at
client construction is purely syntactic and contacts no backend; the model
accepts exactly the strings carrying the redis scheme. -/
def parseRedisUrl (url : String) : Option RedisClient :=
  if url.startsWith "redis://" then some ⟨url⟩ else none

/-- RedisClient construction, lines 108 to 114: parse the address and
unwrap. The none result models the fatal panic, which happens before the
HTTP server starts. No backend state is consulted: construction never
checks reachability. -/
def RedisClient.new (url : String) : Option RedisClient :=
  match parseRedisUrl url with
  | some c => some c
  | none => none

/-- The RedisAPI impl for RedisClient, lines 116 to 129: each call obtains
a multiplexed connection and issues a single command against the current
backend state, returning its result together with the list of commands
issued. Connection establishment is modelled as succeeding; arbitrary
per-call failures are covered at the handler level, where the client is an
arbitrary RedisAPI. -/
def RedisClient.get (_c : RedisClient) (st : Store) (k : String) :
    Except String String × List Command :=
  (backendGET st k, [Command.GET k])

/-- The set half of the RedisAPI impl, lines 124 to 128: one SET command,
yielding the updated backend state and a unit acknowledgement. -/
def RedisClient.set (_c : RedisClient) (st : Store) (k v : String) :
    (Store × Except String Unit) × List Command :=
  ((backendSET st k v, Except.ok ()), [Command.SET k v])

/-- The concrete client seen through the RedisAPI interface at a fixed
backend state, as installed behind the mutex in main, lines 16 to 20. -/
def RedisClient.api (c : RedisClient) (st : Store) : RedisAPI :=
  ⟨fun k => (RedisClient.get c st k).1, fun k v => ((RedisClient.set c st k v).1).2⟩

/-- Progress of one request task through a handler: before the lock call
(lines 65 and 91), holding the mutex guard with the backend call in
flight (lines 70 and 96), and after the guard is dropped. -/
inductive Phase where
  | start : Phase
  | critical : Phase
  | finished : Phase
deriving DecidableEq

/-- Global state of n concurrent requests sharing AppState, lines 10 to
12: the phase of each task and the current holder of the client mutex. -/
structure SysState (n : Nat) where
  phase : Fin n → Phase
  owner : Option (Fin n)

/-- All requests pending, mutex free. -/
def SysState.init (n : Nat) : SysState n :=
  ⟨fun _ => Phase.start, none⟩

/-- Interleaving semantics of the locking discipline the handlers share: a
task may acquire the free mutex and enter its backend call, and the task
holding the mutex may finish the call and drop the guard. No step lets a
task reach the backend call without holding the mutex, matching the code,
where the client is only reachable through the guard. -/
inductive Step {n : Nat} : SysState n → SysState n → Prop where
  | acquire (s : SysState n) (i : Fin n) (h1 : s.phase i = Phase.start)
      (h2 : s.owner = none) :
      Step s ⟨Function.update s.phase i Phase.critical, some i⟩
  | release (s : SysState n) (i : Fin n) (h1 : s.phase i = Phase.critical)
      (h2 : s.owner = some i) :
      Step s ⟨Function.update s.phase i Phase.finished, none⟩

/-- States reachable from the initial state by interleaved steps. -/
def Reachable {n : Nat} (s : SysState n) : Prop :=
  Relation.ReflTransGen Step (SysState.init n) s

/-- Lock invariant: a task inside its backend call holds the mutex. -/
theorem lockInv_of_reachable {n : Nat} (s : SysState n) (h : Reachable s) :
    ∀ i, s.phase i = Phase.critical → s.owner = some i := by
  induction h with
  | refl =>
    intro i hi
    exact absurd hi (by simp [SysState.init])
  | tail _ hstep ih =>
    cases hstep with
    | acquire j h1 h2 =>
      intro i hi
      by_cases hij : i = j
      · subst hij; rfl
      · exfalso
        dsimp only at hi
        rw [Function.update_noteq hij] at hi
        have hnone := ih i hi
        rw [h2] at hnone
        exact Option.noConfusion hnone
    | release j h1 h2 =>
      intro i hi
      by_cases hij : i = j
      · exfalso
        subst hij
        dsimp only at hi
        rw [Function.update_same] at hi
        exact Phase.noConfusion hi
      · exfalso
        dsimp only at hi
        rw [Function.update_noteq hij] at hi
        have hsome := ih i hi
        rw [h2] at hsome
        exact hij (Option.some.inj hsome).symm

/-- C1: every handler failure is one of LockError or ClientError and maps
to HTTP 500: LockError yields the generic internal-error body carrying no
failure detail, ClientError yields a body that includes the underlying
detail, and the two responses are never equal. -/
theorem error_taxonomy (d : String) :
    (MyError.error_response MyError.LockError).status = 500 ∧
    (MyError.error_response (MyError.ClientError d)).status = 500 ∧
    (MyError.error_response MyError.LockError).body =
      Json.str "Internal server error" ∧
    (MyError.error_response (MyError.ClientError d)).body =
      Json.str ("Failed to retrieve value: " ++ d) ∧
    MyError.error_response MyError.LockError ≠
      MyError.error_response (MyError.ClientError d) := by
  refine ⟨rfl, rfl, rfl, rfl, ?_⟩
  intro hcontra
  have hb : Json.str "Internal server error" =
      Json.str ("Failed to retrieve value: " ++ d) :=
    congrArg HttpResponse.body hcontra
  have hs : "Internal server error" = "Failed to retrieve value: " ++ d := by
    injection hb
  have hl := congrArg String.length hs
  rw [String.length_append] at hl
  have e1 : ("Internal server error").length = 21 := rfl
  have e2 : ("Failed to retrieve value: ").length = 26 := rfl
  omega

/-- C2: get_value answers a poisoned lock with the LockError response, a
failed client get with the ClientError response, and a successful get with
200 and a body echoing the request key unchanged next to the value the
client returned. -/
theorem get_value_spec (client : RedisAPI) (req : GetValueReq) :
    respond (get_value LockResult.poisoned client req) =
      MyError.error_response MyError.LockError ∧
    respond (get_value LockResult.acquired client req) =
      (match client.get req.key with
       | Except.error e => MyError.error_response (MyError.ClientError e)
       | Except.ok v =>
         ⟨200, Json.obj [("key", Json.str req.key), ("value", Json.str v)]⟩) := by
  refine ⟨rfl, ?_⟩
  cases h : client.get req.key with
  | error e => simp [respond, get_value, h]
  | ok v => simp [respond, get_value, h, GetValueResp.toJson]

/-- C3: set_value answers a poisoned lock with the LockError response, a
failed client set with the ClientError response, and a successful set with
status 200 — within the 200 or 202 range the claim allows — and a null
acknowledgement body carrying no payload; every status it emits is 200,
202 or 500. -/
theorem set_value_spec (client : RedisAPI) (req : SetValueReq) :
    respond (set_value LockResult.poisoned client req) =
      MyError.error_response MyError.LockError ∧
    respond (set_value LockResult.acquired client req) =
      (match client.set req.key req.value with
       | Except.error e => MyError.error_response (MyError.ClientError e)
       | Except.ok _ => ⟨200, Json.null⟩) ∧
    ∀ lock, (respond (set_value lock client req)).status = 200 ∨
      (respond (set_value lock client req)).status = 202 ∨
      (respond (set_value lock client req)).status = 500 := by
  refine ⟨rfl, ?_, ?_⟩
  · cases h : client.set req.key req.value with
    | error e => simp [respond, set_value, h]
    | ok v => simp [respond, set_value, h]
  · intro lock
    cases lock with
    | poisoned => right; right; rfl
    | acquired =>
      cases h : client.set req.key req.value with
      | error e => right; right; simp [respond, set_value, h, MyError.error_response]
      | ok v => left; simp [respond, set_value, h]

/-- Writes through the concrete client to keys other than k leave the
value stored at k unchanged. -/
theorem writes_elsewhere_preserve (c : RedisClient) (k v : String) :
    ∀ (ws : List (String × String)) (st : Store), st k = some v →
      (∀ w ∈ ws, w.1 ≠ k) →
      (ws.foldl (fun s w => ((RedisClient.set c s w.1 w.2).1).1) st) k = some v := by
  intro ws
  induction ws with
  | nil => intro st h _; simpa using h
  | cons w ws ih =>
    intro st h hws
    rw [List.foldl_cons]
    apply ih
    · have hk : k ≠ w.1 := fun hkw => hws w (List.mem_cons_self w ws) hkw.symm
      show backendSET st w.1 w.2 k = some v
      simp only [backendSET, if_neg hk]
      exact h
    · intro w2 hw2
      exact hws w2 (List.mem_cons_of_mem w hw2)

/-- C4: set and get round-trip through the concrete client: after a
successful set of k to v, followed by any sequence of writes to keys
other than k, a get of k returns v. -/
theorem set_get_roundtrip (c : RedisClient) (st : Store) (k v : String)
    (ws : List (String × String)) (hws : ∀ w ∈ ws, w.1 ≠ k) :
    (RedisClient.get c
      (ws.foldl (fun s w => ((RedisClient.set c s w.1 w.2).1).1)
        ((RedisClient.set c st k v).1).1) k).1 = Except.ok v := by
  have hst : (((RedisClient.set c st k v).1).1) k = some v := by
    show backendSET st k v k = some v
    simp [backendSET]
  have hfold := writes_elsewhere_preserve c k v ws _ hst hws
  show backendGET _ k = Except.ok v
  simp [backendGET, hfold]

/-- Witness for C4 at a concrete store, key, value and one intervening
write to a different key. -/
theorem set_get_roundtrip_witness :
    (RedisClient.get ⟨"redis://127.0.0.1:6379"⟩
      ([(("b" : String), ("2" : String))].foldl
        (fun s w => ((RedisClient.set ⟨"redis://127.0.0.1:6379"⟩ s w.1 w.2).1).1)
        ((RedisClient.set ⟨"redis://127.0.0.1:6379"⟩ (fun _ => none) "a" "1").1).1)
      "a").1 = Except.ok "1" :=
  set_get_roundtrip ⟨"redis://127.0.0.1:6379"⟩ (fun _ => none) "a" "1" [("b", "2")]
    (by
      intro w hw
      have hwv : w = ("b", "2") := by simpa using hw
      rw [hwv]
      decide)

/-- C5: mutual exclusion of backend calls: in any state reachable under
the interleaving semantics of the locking discipline, two tasks that are
both inside their backend call are the same task, so at most one backend
call is in flight at any instant. -/
theorem mutual_exclusion {n : Nat} (s : SysState n) (h : Reachable s)
    (i j : Fin n) (hi : s.phase i = Phase.critical)
    (hj : s.phase j = Phase.critical) : i = j := by
  have h1 := lockInv_of_reachable s h i hi
  have h2 := lockInv_of_reachable s h j hj
  rw [h1] at h2
  exact Option.some.inj h2

/-- Witness for C5: with two tasks, the state where task zero has just
acquired the mutex is reachable, its phase is critical there, and the
theorem applies. -/
theorem mutual_exclusion_witness :
    Reachable (⟨Function.update (fun _ => Phase.start) (0 : Fin 2) Phase.critical,
      some 0⟩ : SysState 2) ∧ ((0 : Fin 2) = 0) := by
  have hreach : Reachable (⟨Function.update (fun _ => Phase.start) (0 : Fin 2)
      Phase.critical, some 0⟩ : SysState 2) :=
    Relation.ReflTransGen.single (Step.acquire (SysState.init 2) 0 rfl rfl)
  have hcrit : (⟨Function.update (fun _ => Phase.start) (0 : Fin 2) Phase.critical,
      some 0⟩ : SysState 2).phase 0 = Phase.critical := by
    dsimp only
    rw [Function.update_same]
  exact ⟨hreach, mutual_exclusion _ hreach 0 0 hcrit hcrit⟩

/-- C6: whatever the lock and the client do, each handler produces a
well-formed response whose status is 200 or 500; and client construction
fails fatally exactly on a syntactically invalid backend address,
consulting no backend state. -/
theorem no_handler_crash (lock : LockResult) (client : RedisAPI)
    (greq : GetValueReq) (sreq : SetValueReq) (url : String) :
    ((respond (get_value lock client greq)).status = 200 ∨
      (respond (get_value lock client greq)).status = 500) ∧
    ((respond (set_value lock client sreq)).status = 200 ∨
      (respond (set_value lock client sreq)).status = 500) ∧
    (RedisClient.new url = none ↔ url.startsWith "redis://" = false) := by
  refine ⟨?_, ?_, ?_⟩
  · cases lock with
    | poisoned => right; rfl
    | acquired =>
      cases h : client.get greq.key with
      | error e => right; simp [respond, get_value, h, MyError.error_response]
      | ok v => left; simp [respond, get_value, h]
  · cases lock with
    | poisoned => right; rfl
    | acquired =>
      cases h : client.set sreq.key sreq.value with
      | error e => right; simp [respond, set_value, h, MyError.error_response]
      | ok v => left; simp [respond, set_value, h]
  · unfold RedisClient.new parseRedisUrl
    cases hs : url.startsWith "redis://" with
    | false => simp
    | true => simp

/-- C7: a get of a never-written key is a backend failure, not a crash,
and the handler then responds 500 with a non-empty error body. -/
theorem get_absent_key (c : RedisClient) (st : Store) (k : String)
    (h : st k = none) :
    (∃ e, (RedisClient.get c st k).1 = Except.error e) ∧
    ∃ s, respond (get_value LockResult.acquired (RedisClient.api c st) ⟨k⟩) =
      ⟨500, Json.str s⟩ ∧ s ≠ "" := by
  constructor
  · exact ⟨"response was nil for key " ++ k, by simp [RedisClient.get, backendGET, h]⟩
  · refine ⟨"Failed to retrieve value: " ++ ("response was nil for key " ++ k), ?_, ?_⟩
    · simp [respond, get_value, RedisClient.api, RedisClient.get, backendGET, h,
        MyError.error_response]
    · intro hemp
      have hlen := congrArg String.length hemp
      rw [String.length_append, String.length_append] at hlen
      have e1 : ("Failed to retrieve value: ").length = 26 := rfl
      have e2 : ("response was nil for key ").length = 25 := rfl
      have e3 : ("" : String).length = 0 := rfl
      omega

/-- Witness for C7 on the empty backend and a concrete key. -/
theorem get_absent_key_witness :
    (∃ e, (RedisClient.get ⟨"redis://127.0.0.1:6379"⟩ (fun _ => none) "missing").1 =
      Except.error e) ∧
    ∃ s, respond (get_value LockResult.acquired
      (RedisClient.api ⟨"redis://127.0.0.1:6379"⟩ (fun _ => none)) ⟨"missing"⟩) =
      ⟨500, Json.str s⟩ ∧ s ≠ "" :=
  get_absent_key ⟨"redis://127.0.0.1:6379"⟩ (fun _ => none) "missing" rfl

/-- C8: the handlers validate nothing: each consults the client only at
exactly the request key (and value) it decoded, so clients agreeing there
are indistinguishable to it, and any strings — the empty string included —
are accepted and reach the client verbatim. -/
theorem no_content_validation (fa ga : RedisAPI) (greq : GetValueReq)
    (sreq : SetValueReq) :
    (fa.get greq.key = ga.get greq.key →
      get_value LockResult.acquired fa greq = get_value LockResult.acquired ga greq) ∧
    (fa.set sreq.key sreq.value = ga.set sreq.key sreq.value →
      set_value LockResult.acquired fa sreq = set_value LockResult.acquired ga sreq) ∧
    (respond (set_value LockResult.acquired
      ⟨fun _ => Except.ok "", fun _ _ => Except.ok ()⟩ sreq)).status = 200 ∧
    (respond (get_value LockResult.acquired
      ⟨fun _ => Except.ok "", fun _ _ => Except.ok ()⟩ greq)).status = 200 := by
  refine ⟨?_, ?_, rfl, rfl⟩
  · intro h
    simp only [get_value, h]
  · intro h
    simp only [set_value, h]

/-- Witness for C8 at empty-string key and value, with two clients that
agree at the request key. -/
theorem no_content_validation_witness :
    (get_value LockResult.acquired
        ⟨fun _ => Except.ok "x", fun _ _ => Except.ok ()⟩ ⟨""⟩ =
      get_value LockResult.acquired
        ⟨fun q => if q.length = 0 then Except.ok "x" else Except.error "gone",
          fun _ _ => Except.ok ()⟩ ⟨""⟩) ∧
    (set_value LockResult.acquired
        ⟨fun _ => Except.ok "x", fun _ _ => Except.ok ()⟩ ⟨"", ""⟩ =
      set_value LockResult.acquired
        ⟨fun q => if q.length = 0 then Except.ok "x" else Except.error "gone",
          fun _ _ => Except.ok ()⟩ ⟨"", ""⟩) :=
  ⟨(no_content_validation
      ⟨fun _ => Except.ok "x", fun _ _ => Except.ok ()⟩
      ⟨fun q => if q.length = 0 then Except.ok "x" else Except.error "gone",
        fun _ _ => Except.ok ()⟩ ⟨""⟩ ⟨"", ""⟩).1 rfl,
    (no_content_validation
      ⟨fun _ => Except.ok "x", fun _ _ => Except.ok ()⟩
      ⟨fun q => if q.length = 0 then Except.ok "x" else Except.error "gone",
        fun _ _ => Except.ok ()⟩ ⟨""⟩ ⟨"", ""⟩).2.1 rfl⟩

/-- C9: each concrete client call issues exactly one backend command, two
successive gets of the same key issue one command each, and every get
reads the current backend state — no batching, pipelining or caching. -/
theorem one_command_per_call (c : RedisClient) (st : Store) (k v : String) :
    (RedisClient.get c st k).2 = [Command.GET k] ∧
    (RedisClient.set c st k v).2 = [Command.SET k v] ∧
    (RedisClient.get c st k).2 ++ (RedisClient.get c st k).2 =
      [Command.GET k, Command.GET k] ∧
    (RedisClient.get c st k).1 = backendGET st k :=
  ⟨rfl, rfl, rfl, rfl⟩

/-- C10: when a set fails, the mapper renders the same retrieval-oriented
message used for failed gets: 500 with the fixed retrieval text followed
by the detail, since both operations share the single ClientError
variant. -/
theorem set_failure_message (client : RedisAPI) (req : SetValueReq) (d : String)
    (h : client.set req.key req.value = Except.error d) :
    respond (set_value LockResult.acquired client req) =
      ⟨500, Json.str ("Failed to retrieve value: " ++ d)⟩ := by
  simp [respond, set_value, h, MyError.error_response]

/-- Witness for C10 with a client whose set fails with a concrete
connection-refused detail. -/
theorem set_failure_message_witness :
    respond (set_value LockResult.acquired
      ⟨fun _ => Except.ok "", fun _ _ => Except.error "connection refused"⟩
      ⟨"a", "1"⟩) =
      ⟨500, Json.str ("Failed to retrieve value: " ++ "connection refused")⟩ :=
  set_failure_message
    ⟨fun _ => Except.ok "", fun _ _ => Except.error "connection refused"⟩
    ⟨"a", "1"⟩ "connection refused" rfl
